import Mathlib

/-!
Verification of the declarative catalog cache and query engine of the
operator-registry repository.

The repository snapshot under inspection contains the gRPC server tests
(`pkg/server/server_test.go`), the `opm serve` command
(`cmd/opm/serve/serve.go`) and two further test files.  The query-engine
and cache implementations themselves (`pkg/cache`, `pkg/registry`,
`alpha/model`) are not part of the snapshot, so they are modelled here
from the specification, and the concrete expectations pinned by the tests
(which are part of the snapshot) are used as the authority for observable
behaviour.  Declarative-config fixtures that appear literally in the test
file (`validFS` with the cockroachdb catalog and its deprecations) are
embedded verbatim; the etcd catalog served from `../../manifests` is not
in the snapshot and is modelled from the specification's description of
it and from the expectations of the tests that query it.
-/

namespace OperatorRegistry

/-! ## Semantic versions

The model builder parses each bundle's `version` string as a semantic
version `major.minor.patch`; the parse is used for the channel-head
tie-break and for `skipRange` evaluation.  String traversal is done over
the character list of the string so that everything evaluates inside the
kernel. -/

structure Semver where
  major : Nat
  minor : Nat
  patch : Nat
deriving DecidableEq

/-- Reads a non-empty all-digit character list as a natural number. -/
def readNatAux : List Char → Nat → Option Nat
  | [], n => some n
  | c :: cs, n =>
    if c.isDigit then readNatAux cs (n * 10 + (c.toNat - 48)) else none

def parseNat (cs : List Char) : Option Nat :=
  match cs with
  | [] => none
  | _ => readNatAux cs 0

/-- Splits a character list on a separator character, keeping empty groups. -/
def splitOnChar (sep : Char) : List Char → List (List Char)
  | [] => [[]]
  | c :: cs =>
    let r := splitOnChar sep cs
    if c = sep then [] :: r
    else
      match r with
      | [] => [[c]]
      | g :: gs => (c :: g) :: gs

def parseSemver (s : String) : Option Semver :=
  match (splitOnChar '.' s.data).mapM parseNat with
  | some [a, b, c] => some ⟨a, b, c⟩
  | _ => none

/-- Version used for ordering; an unparsable version string is treated as
`0.0.0` (the builder rejects such catalogs, so loaded models never hit
this default). -/
def semverOrDefault (s : String) : Semver :=
  (parseSemver s).getD ⟨0, 0, 0⟩

/-- Strict lexicographic order on semantic versions. -/
def Semver.ltb (a b : Semver) : Bool :=
  a.major < b.major ||
    (a.major == b.major &&
      (a.minor < b.minor || (a.minor == b.minor && a.patch < b.patch)))

/-- Interprets a `skipRange` expression of the strict-upper-bound form
`"< X"` / `"<X"`, the only form appearing in the repository's fixtures.
Any other non-empty range and the empty range yield no bound. -/
def skipRangeBound (s : String) : Option Semver :=
  match s.data with
  | '<' :: rest => parseSemver ⟨rest.dropWhile (· = ' ')⟩
  | _ => none

/-! ## Catalog data model

One record per bundle occurrence in a channel: the `replaces`, `skips`
and `skipRange` upgrade edges are channel-entry data in the declarative
config, so each channel's copy of a bundle carries its channel-specific
edges, as in the model builder's projection. -/

structure GroupVersionKind where
  group : String
  version : String
  kind : String
deriving DecidableEq

structure Property where
  type : String
  value : String
deriving DecidableEq

structure Bundle where
  name : String
  version : String
  replaces : String
  skips : List String
  skipRange : String
  bundlePath : String
  providedApis : List GroupVersionKind
  requiredApis : List GroupVersionKind
  properties : List Property
  dependencies : List Property
deriving DecidableEq

structure Channel where
  name : String
  bundles : List Bundle
deriving DecidableEq

/-- Target of one entry of an `olm.deprecations` object. -/
inductive DeprecationRef where
  | pkg : DeprecationRef
  | channel (name : String) : DeprecationRef
  | bundle (name : String) : DeprecationRef
deriving DecidableEq

structure DeprecationEntry where
  reference : DeprecationRef
  message : String
deriving DecidableEq

structure Package where
  name : String
  defaultChannel : String
  channels : List Channel
  deprecations : List DeprecationEntry
deriving DecidableEq

abbrev Catalog := List Package

/-! ## Channel heads

Modelled from the spec: "the head of a channel is the unique bundle that
is not `replaces`-targeted nor `skips`-targeted by any other bundle in
that channel, tie-broken by greatest semver `version`, then by bundle
name."  The tie-break key is the lexicographic pair of the parsed version
and the bundle name (as a character list, so comparisons compute). -/

abbrev BundleKey := Nat ×ₗ (Nat ×ₗ (Nat ×ₗ List Char))

def bundleKey (b : Bundle) : BundleKey :=
  let v := semverOrDefault b.version
  toLex (v.major, toLex (v.minor, toLex (v.patch, b.name.data)))

/-- Does some other bundle of the channel replace or skip the named bundle? -/
def isTargeted (ch : Channel) (name : String) : Bool :=
  ch.bundles.any fun o =>
    o.name != name && (o.replaces == name || o.skips.contains name)

def nonTargeted (ch : Channel) : List Bundle :=
  ch.bundles.filter fun b => !isTargeted ch b.name

/-- Modelled from the spec: the channel-head rule of the query engine
(the implementation, `pkg/cache`/`pkg/registry`, is not in the
snapshot) — the untargeted bundle with the greatest
`(version, name)` key. -/
def channelHead (ch : Channel) : Option Bundle :=
  (nonTargeted ch).argmax bundleKey

/-! ## Served message types

Lean counterparts of the `api.Package`, `api.Channel`, `api.Bundle`,
`api.ChannelEntry` and `api.Deprecation` protocol messages exercised by
`pkg/server/server_test.go`.  The `CsvJson` and `Object` manifest
payloads of `api.Bundle` are omitted: no claim inspects them, and none of
the embedded expectations below depends on them. -/

structure ApiDeprecation where
  message : String
deriving DecidableEq

structure ApiChannel where
  name : String
  csvName : String
  deprecation : Option ApiDeprecation
deriving DecidableEq

structure ApiPackage where
  name : String
  channels : List ApiChannel
  defaultChannelName : String
  deprecation : Option ApiDeprecation
deriving DecidableEq

structure ApiBundle where
  csvName : String
  packageName : String
  channelName : String
  bundlePath : String
  providedApis : List GroupVersionKind
  requiredApis : List GroupVersionKind
  version : String
  skipRange : String
  dependencies : List Property
  properties : List Property
  replaces : String
  skips : List String
deriving DecidableEq

structure ChannelEntry where
  packageName : String
  channelName : String
  bundleName : String
  replaces : String
deriving DecidableEq

/-! ## Deprecation attribution -/

def packageDeprecation (p : Package) : Option String :=
  (p.deprecations.find? fun e =>
    match e.reference with
    | .pkg => true
    | _ => false).map (·.message)

def channelDeprecation (p : Package) (chName : String) : Option String :=
  (p.deprecations.find? fun e =>
    match e.reference with
    | .channel n => n == chName
    | _ => false).map (·.message)

def bundleDeprecation (p : Package) (bName : String) : Option String :=
  (p.deprecations.find? fun e =>
    match e.reference with
    | .bundle n => n == bName
    | _ => false).map (·.message)

def mkDeprecationProperty (msg : String) : Property :=
  { type := "olm.deprecation", value := msg }

/-! ## Query engine

Modelled from the spec (§4.E); the implementation is not part of the
snapshot.  Where the spec and the expectations pinned by
`pkg/server/server_test.go` disagree, the test expectations are followed
and the discrepancy is settled in the claim theorems below. -/

def findPackage (c : Catalog) (pkg : String) : Option Package :=
  c.find? fun p => p.name == pkg

def findChannel (p : Package) (chName : String) : Option Channel :=
  p.channels.find? fun ch => ch.name == chName

/-- Modelled from the spec: the missing query engine's
projection of a model bundle to the served `api.Bundle`.  As pinned by
`TestGetBundle` / `TestGetBundleThatReplaces` (whose expected bundles are
built with `addSkipsReplaces = false`), the single-bundle queries do not
populate the `replaces`/`skips` fields.  The only deprecation attached is
the bundle-scoped one, emitted as a property of type `olm.deprecation`:
`TestGetBundle` on the deprecations fixture expects no channel- or
package-scoped deprecation property on `cockroachdb.v5.0.4`. -/
def apiBundleOf (p : Package) (ch : Channel) (b : Bundle) : ApiBundle :=
  { csvName := b.name
    packageName := p.name
    channelName := ch.name
    bundlePath := b.bundlePath
    providedApis := b.providedApis
    requiredApis := b.requiredApis
    version := b.version
    skipRange := b.skipRange
    dependencies := b.dependencies
    properties := b.properties ++
      ((bundleDeprecation p b.name).map mkDeprecationProperty).toList
    replaces := ""
    skips := [] }

/-- Modelled from the spec: the missing query engine's `GetPackage`
payload — channel summaries `(name, head csv name, channel-scoped
deprecation)` plus the package-scoped deprecation.  Channels without a
head are not listed. -/
def apiPackageOf (p : Package) : ApiPackage :=
  { name := p.name
    channels := p.channels.filterMap fun ch =>
      (channelHead ch).map fun h =>
        { name := ch.name
          csvName := h.name
          deprecation := (channelDeprecation p ch.name).map ApiDeprecation.mk }
    defaultChannelName := p.defaultChannel
    deprecation := (packageDeprecation p).map ApiDeprecation.mk }

/-- Modelled from the spec: the missing query engine's `GetPackage`. -/
def GetPackage (c : Catalog) (pkg : String) : Option ApiPackage :=
  (findPackage c pkg).map apiPackageOf

/-- Modelled from the spec: the missing query engine's `GetBundle` —
the full bundle at `(pkg, channel, csvName)`, `none` when absent. -/
def GetBundle (c : Catalog) (pkg chName csvName : String) : Option ApiBundle :=
  (findPackage c pkg).bind fun p =>
    (findChannel p chName).bind fun ch =>
      (ch.bundles.find? fun b => b.name == csvName).map (apiBundleOf p ch)

/-- Modelled from the spec: the missing query engine's
`GetBundleForChannel` — the channel-head bundle. -/
def GetBundleForChannel (c : Catalog) (pkg chName : String) : Option ApiBundle :=
  (findPackage c pkg).bind fun p =>
    (findChannel p chName).bind fun ch =>
      (channelHead ch).map (apiBundleOf p ch)

/-- Version of the bundle named `csvName` anywhere in the package, when
one exists. -/
def versionOfName (p : Package) (csvName : String) : Option Semver :=
  ((p.channels.flatMap Channel.bundles).find? fun b => b.name == csvName).map
    fun b => semverOrDefault b.version

/-- Modelled from the spec: "`csvName` satisfies `B.skipRange`" — read as
the version of the bundle named `csvName` lying in the range. -/
def satisfiesSkipRange (p : Package) (b : Bundle) (csvName : String) : Bool :=
  match skipRangeBound b.skipRange, versionOfName p csvName with
  | some bound, some v => Semver.ltb v bound
  | _, _ => false

/-- Modelled from the spec: a candidate replacement is a bundle `B` of the
channel with `B.replaces == csvName`, or `csvName ∈ B.skips`, or `csvName`
naming a bundle whose version satisfies `B.skipRange`. -/
def replacesMatches (p : Package) (b : Bundle) (csvName : String) : Bool :=
  b.replaces == csvName || b.skips.contains csvName ||
    satisfiesSkipRange p b csvName

/-- Modelled from the spec: among the candidate replacements, the one with
greatest semver version, tie-broken by bundle name. -/
def GetBundleThatReplaces (c : Catalog) (csvName pkg chName : String) :
    Option ApiBundle :=
  (findPackage c pkg).bind fun p =>
    (findChannel p chName).bind fun ch =>
      ((ch.bundles.filter fun b => replacesMatches p b csvName).argmax
        bundleKey).map (apiBundleOf p ch)

/-- Modelled from the spec: the stream of channel entries across all
packages and channels whose explicit `replaces` field equals `csvName`;
`skips`/`skipRange` coverage does not match this query. -/
def GetChannelEntriesThatReplace (c : Catalog) (csvName : String) :
    List ChannelEntry :=
  c.flatMap fun p =>
    p.channels.flatMap fun ch =>
      (ch.bundles.filter fun b => b.replaces == csvName).map fun b =>
        ⟨p.name, ch.name, b.name, b.replaces⟩

/-- Channel entries contributed by one bundle of one channel: its explicit
`replaces` edge (`""` for a channel root) plus one synthetic entry per
`skips` predecessor. -/
def entriesForBundle (p : Package) (ch : Channel) (b : Bundle) :
    List ChannelEntry :=
  ⟨p.name, ch.name, b.name, b.replaces⟩ ::
    b.skips.map fun s => ⟨p.name, ch.name, b.name, s⟩

/-- Modelled from the spec: one entry per distinct
`(pkg, channel, bundleName, replaces)` tuple of bundles providing the
GVK, expanded per incoming predecessor. -/
def GetChannelEntriesThatProvide (c : Catalog) (g : GroupVersionKind) :
    List ChannelEntry :=
  (c.flatMap fun p =>
    p.channels.flatMap fun ch =>
      (ch.bundles.filter fun b => b.providedApis.contains g).flatMap
        (entriesForBundle p ch)).dedup

/-- Modelled from the spec: for each `(pkg, channel)` whose head provides
the GVK, the head's own entry. -/
def GetLatestChannelEntriesThatProvide (c : Catalog) (g : GroupVersionKind) :
    List ChannelEntry :=
  c.flatMap fun p =>
    p.channels.filterMap fun ch =>
      (channelHead ch).bind fun h =>
        if h.providedApis.contains g then
          some ⟨p.name, ch.name, h.name, h.replaces⟩
        else none

/-! ## The deprecations fixture

Embedded from `validFS` in `pkg/server/server_test.go`: the cockroachdb
catalog (`cockroachdb.json`) and its `olm.deprecations` object
(`deprecations.yaml`).  The bundle `version` is the one advertised by the
bundle's `olm.package` property; `replaces`/`skipRange` are the channel
entries' edges.  Braces in JSON property values are written with their
escape codes, apostrophes likewise. -/

def cockroachGvkJson : String :=
  "\x7b\"group\":\"charts.operatorhub.io\",\"kind\":\"Cockroachdb\",\"version\":\"v1alpha1\"\x7d"

def cockroachGvk : GroupVersionKind :=
  ⟨"charts.operatorhub.io", "v1alpha1", "Cockroachdb"⟩

def cockroachPkgJson (v : String) : String :=
  "\x7b\"packageName\":\"cockroachdb\",\"version\":\"" ++ v ++ "\"\x7d"

def cockroachV503 : Bundle :=
  { name := "cockroachdb.v5.0.3"
    version := "5.0.3"
    replaces := ""
    skips := []
    skipRange := ""
    bundlePath := "quay.io/openshift-community-operators/cockroachdb@sha256:a5d4f4467250074216eb1ba1c36e06a3ab797d81c431427fc2aca97ecaf4e9d8"
    providedApis := [cockroachGvk]
    requiredApis := []
    properties := [⟨"olm.gvk", cockroachGvkJson⟩,
                   ⟨"olm.package", cockroachPkgJson "5.0.3"⟩]
    dependencies := [] }

def cockroachV504 : Bundle :=
  { name := "cockroachdb.v5.0.4"
    version := "5.0.4"
    replaces := "cockroachdb.v5.0.3"
    skips := []
    skipRange := ""
    bundlePath := "quay.io/openshift-community-operators/cockroachdb@sha256:f42337e7b85a46d83c94694638e2312e10ca16a03542399a65ba783c94a32b63"
    providedApis := [cockroachGvk]
    requiredApis := []
    properties := [⟨"olm.gvk", cockroachGvkJson⟩,
                   ⟨"olm.package", cockroachPkgJson "5.0.4"⟩]
    dependencies := [] }

def cockroachV600 : Bundle :=
  { name := "cockroachdb.v6.0.0"
    version := "6.0.0"
    replaces := ""
    skips := []
    skipRange := "<6.0.0"
    bundlePath := "quay.io/openshift-community-operators/cockroachdb@sha256:d3016b1507515fc7712f9c47fd9082baf9ccb070aaab58ed0ef6e5abdedde8ba"
    providedApis := [cockroachGvk]
    requiredApis := []
    properties := [⟨"olm.gvk", cockroachGvkJson⟩,
                   ⟨"olm.package", cockroachPkgJson "6.0.0"⟩]
    dependencies := [] }

def cockroachBundleDeprecationMsg : String :=
  "cockroachdb.v5.0.3 is deprecated. Uninstall and install cockroachdb.v5.0.4 for support.\n"

def cockroachPackageDeprecationMsg : String :=
  "package cockroachdb is end of life.  Please use \x27nouveau-cockroachdb\x27 package for support.\n"

def cockroachChannelDeprecationMsg : String :=
  "channel stable-5.x is no longer supported.  Please switch to channel \x27stable-6.x\x27.\n"

def cockroachPackage : Package :=
  { name := "cockroachdb"
    defaultChannel := "stable-v6.x"
    channels := [⟨"stable-5.x", [cockroachV503, cockroachV504]⟩,
                 ⟨"stable-v6.x", [cockroachV600]⟩]
    deprecations :=
      [⟨.bundle "cockroachdb.v5.0.3", cockroachBundleDeprecationMsg⟩,
       ⟨.pkg, cockroachPackageDeprecationMsg⟩,
       ⟨.channel "stable-5.x", cockroachChannelDeprecationMsg⟩] }

def deprecationsFixture : Catalog := [cockroachPackage]

/-! ## The etcd catalog

Modelled from the spec: the etcd package of the `../../manifests` catalog
served by the test servers is not part of the snapshot; its shape is the
one described by the spec's concrete scenarios (§8) and pinned by the
test expectations.  Channels `alpha` and `stable` hold
`v0.6.1 ← v0.9.0 ← v0.9.2` with `v0.9.2` skipping the never-published
`v0.9.1`; channel `beta` stops at `v0.9.0`; the default channel is
`alpha`.  All three bundles provide `EtcdCluster v1beta2`.  The other
packages of that catalog (prometheus, strimzi) provide none of the
queried GVKs and are not modelled. -/

def gvkEtcdCluster : GroupVersionKind :=
  ⟨"etcd.database.coreos.com", "v1beta2", "EtcdCluster"⟩

def gvkEtcdBackup : GroupVersionKind :=
  ⟨"etcd.database.coreos.com", "v1beta2", "EtcdBackup"⟩

def gvkEtcdRestore : GroupVersionKind :=
  ⟨"etcd.database.coreos.com", "v1beta2", "EtcdRestore"⟩

def gvkEtcdClusterJson : String :=
  "\x7b\"group\":\"etcd.database.coreos.com\",\"kind\":\"EtcdCluster\",\"version\":\"v1beta2\"\x7d"

def gvkEtcdRestoreJson : String :=
  "\x7b\"group\":\"etcd.database.coreos.com\",\"kind\":\"EtcdRestore\",\"version\":\"v1beta2\"\x7d"

def gvkEtcdBackupJson : String :=
  "\x7b\"group\":\"etcd.database.coreos.com\",\"kind\":\"EtcdBackup\",\"version\":\"v1beta2\"\x7d"

def etcdBaseProperties : List Property :=
  [⟨"olm.package", "\x7b\"packageName\":\"etcd\",\"version\":\"0.9.2\"\x7d"⟩,
   ⟨"olm.gvk", gvkEtcdClusterJson⟩,
   ⟨"olm.gvk", gvkEtcdRestoreJson⟩,
   ⟨"olm.gvk", gvkEtcdBackupJson⟩,
   ⟨"olm.label", "\x7b\"label\":\"testlabel\"\x7d"⟩,
   ⟨"olm.label", "\x7b\"label\":\"testlabel1\"\x7d"⟩,
   ⟨"other", "\x7b\"its\":\"notdefined\"\x7d"⟩]

def etcdV061 : Bundle :=
  { name := "etcdoperator.v0.6.1"
    version := "0.6.1"
    replaces := ""
    skips := []
    skipRange := ""
    bundlePath := ""
    providedApis := [gvkEtcdCluster]
    requiredApis := []
    properties := []
    dependencies := [] }

def etcdV090 : Bundle :=
  { name := "etcdoperator.v0.9.0"
    version := "0.9.0"
    replaces := "etcdoperator.v0.6.1"
    skips := []
    skipRange := ""
    bundlePath := ""
    providedApis := [gvkEtcdCluster]
    requiredApis := []
    properties := []
    dependencies := [] }

def etcdV092 : Bundle :=
  { name := "etcdoperator.v0.9.2"
    version := "0.9.2"
    replaces := "etcdoperator.v0.9.0"
    skips := ["etcdoperator.v0.9.1"]
    skipRange := "< 0.6.0"
    bundlePath := "fake/etcd-operator:v0.9.2"
    providedApis := [gvkEtcdCluster, gvkEtcdBackup, gvkEtcdRestore]
    requiredApis := [gvkEtcdCluster]
    properties := etcdBaseProperties ++
      [⟨"olm.gvk.required", gvkEtcdClusterJson⟩]
    dependencies := [⟨"olm.gvk", gvkEtcdClusterJson⟩] }

/-- Modelled from the spec: the etcd package of the manifests catalog,
which is not in the snapshot (see the section comment above). -/
def etcdPackage : Package :=
  { name := "etcd"
    defaultChannel := "alpha"
    channels := [⟨"alpha", [etcdV061, etcdV090, etcdV092]⟩,
                 ⟨"beta", [etcdV061, etcdV090]⟩,
                 ⟨"stable", [etcdV061, etcdV090, etcdV092]⟩]
    deprecations := [] }

def etcdCatalog : Catalog := [etcdPackage]

/-! ## Expected bundles of the server tests

Embedded from `pkg/server/server_test.go`.  `etcdoperatorV0_9_2` mirrors
the Go helper of the same name, minus its `includeManifests` dimension:
the `CsvJson`/`Object` payloads it would select are not represented in
`ApiBundle`. -/

def etcdoperatorV0_9_2 (channel : String)
    (addSkipsReplaces addExtraProperties : Bool) : ApiBundle :=
  { csvName := "etcdoperator.v0.9.2"
    packageName := "etcd"
    channelName := channel
    bundlePath := "fake/etcd-operator:v0.9.2"
    dependencies := [⟨"olm.gvk", gvkEtcdClusterJson⟩]
    properties := etcdBaseProperties ++
      (if addExtraProperties then [⟨"olm.gvk.required", gvkEtcdClusterJson⟩]
       else [])
    providedApis := [gvkEtcdCluster, gvkEtcdBackup, gvkEtcdRestore]
    requiredApis := [gvkEtcdCluster]
    version := "0.9.2"
    skipRange := "< 0.6.0"
    replaces := if addSkipsReplaces then "etcdoperator.v0.9.0" else ""
    skips := if addSkipsReplaces then ["etcdoperator.v0.9.1"] else [] }

/-- Expected `GetBundle` result on the deprecations fixture, embedded from
`cockroachBundle` in `TestGetBundle`: note that its property list holds
exactly the `olm.gvk` and `olm.package` properties — no deprecation is
attached. -/
def cockroachBundle : ApiBundle :=
  { csvName := "cockroachdb.v5.0.4"
    packageName := "cockroachdb"
    channelName := "stable-5.x"
    bundlePath := "quay.io/openshift-community-operators/cockroachdb@sha256:f42337e7b85a46d83c94694638e2312e10ca16a03542399a65ba783c94a32b63"
    requiredApis := []
    version := "5.0.4"
    skipRange := ""
    dependencies := []
    providedApis := [cockroachGvk]
    properties := [⟨"olm.gvk", cockroachGvkJson⟩,
                   ⟨"olm.package", cockroachPkgJson "5.0.4"⟩]
    replaces := ""
    skips := [] }

/-- Expected `GetPackage("cockroachdb")` result, embedded from
`getPackageExpectedDep` in `TestGetPackage`. -/
def getPackageExpectedDep : ApiPackage :=
  { name := "cockroachdb"
    channels :=
      [⟨"stable-5.x", "cockroachdb.v5.0.4",
        some ⟨cockroachChannelDeprecationMsg⟩⟩,
       ⟨"stable-v6.x", "cockroachdb.v6.0.0", none⟩]
    defaultChannelName := "stable-v6.x"
    deprecation := some ⟨cockroachPackageDeprecationMsg⟩ }

/-- Expected `GetPackage("etcd")` result, embedded from
`getPackageExpected` in `TestGetPackage`. -/
def getPackageExpected : ApiPackage :=
  { name := "etcd"
    channels := [⟨"alpha", "etcdoperator.v0.9.2", none⟩,
                 ⟨"beta", "etcdoperator.v0.9.0", none⟩,
                 ⟨"stable", "etcdoperator.v0.9.2", none⟩]
    defaultChannelName := "alpha"
    deprecation := none }

/-! ## Cache store and integrity check

Modelled from the spec (§4.D): the cache store implementation is not part
of the snapshot.  The source filesystem is an enumeration of regular
files in walk order (the walk visits paths in sorted order, so the list
is taken as already path-sorted).  The canonical digest is the SHA-256 of
the per-file `(relative-path, size, sha256(content))` summary; both
hashes are modelled as the identity on their input, so the digest is the
canonical summary itself — the spec treats the digest as a
content-determined fingerprint and collision-freeness of SHA-256 is its
standing assumption. -/

structure SourceFile where
  path : String
  contents : String
deriving DecidableEq

abbrev SourceFS := List SourceFile

/-- Modelled from the spec: the canonical source summary behind the
missing cache store's digest — per regular file, the tuple
`(relative-path, size, sha256(content))`, with the hash modelled as the
content itself. -/
def canonicalSummary (fs : SourceFS) : List (String × Nat × String) :=
  fs.map fun f => (f.path, f.contents.length, f.contents)

structure Cache where
  storedDigest : Option (List (String × Nat × String))
deriving DecidableEq

/-- Modelled from the spec: `Build` writes the canonical digest of the
source tree into the cache. -/
def Cache.build (fs : SourceFS) : Cache :=
  { storedDigest := some (canonicalSummary fs) }

/-- Modelled from the spec: `CheckIntegrity` recomputes the digest from
the current source FS and compares it with the stored one; any mismatch
(including a missing digest) is a failure. -/
def CheckIntegrity (c : Cache) (fs : SourceFS) : Bool :=
  c.storedDigest == some (canonicalSummary fs)

/-! ## The serve command

Control-flow embedding of `serve.run` and of the flag defaulting in
`NewCmd` (`cmd/opm/serve/serve.go`, which is part of the snapshot).  The
pprof/termination-log/nsswitch preamble performs no cache operation and
is not represented; `run` is modelled as the list of cache/server
operations it performs, in order, together with the error it returns, if
any.  Load and LoadOrRebuild are assumed to succeed: the claims under
verification only concern the integrity-failure and flag-validation
paths. -/

inductive ServeStep where
  | cacheNew
  | integrityCheck
  | loadCache
  | loadOrRebuild
  | serveGrpc
deriving DecidableEq

/-- Flag defaulting from `NewCmd`: when `--cache-enforce-integrity` was
not explicitly set, it defaults to `cacheDir != "" && !cacheOnly`. -/
def effectiveCacheEnforceIntegrity (flagChanged explicitValue : Bool)
    (cacheDir : String) (cacheOnly : Bool) : Bool :=
  if flagChanged then explicitValue else cacheDir != "" && !cacheOnly

structure ServeFlags where
  cacheDir : String
  cacheOnly : Bool
  cacheEnforceIntegrity : Bool
deriving DecidableEq

/-- Trace-of-steps embedding of `serve.run`: the performed cache/server
operations and the returned error, if any. -/
def serveRun (s : ServeFlags) (store : Cache) (fs : SourceFS) :
    List ServeStep × Option String :=
  if s.cacheDir == "" && s.cacheEnforceIntegrity then
    ([], some "--cache-dir must be specified with --cache-enforce-integrity")
  else if s.cacheEnforceIntegrity then
    if CheckIntegrity store fs then
      if s.cacheOnly then
        ([.cacheNew, .integrityCheck, .loadCache], none)
      else
        ([.cacheNew, .integrityCheck, .loadCache, .serveGrpc], none)
    else
      ([.cacheNew, .integrityCheck], some "integrity check failed")
  else
    if s.cacheOnly then
      ([.cacheNew, .loadOrRebuild], none)
    else
      ([.cacheNew, .loadOrRebuild, .serveGrpc], none)

/-! ## A catalog whose only GVK provider is hidden from the channel head

Witness catalog for the latest-providers claim: channel `ch` holds the
head `a` (which provides nothing and skips `b`) and the bundle `b`, the
only provider of `g`. -/

def hiddenGvk : GroupVersionKind := ⟨"g", "v1", "K"⟩

def hiddenProviderB : Bundle :=
  { name := "b"
    version := "1.0.0"
    replaces := ""
    skips := []
    skipRange := ""
    bundlePath := ""
    providedApis := [hiddenGvk]
    requiredApis := []
    properties := []
    dependencies := [] }

def hiddenHeadA : Bundle :=
  { name := "a"
    version := "2.0.0"
    replaces := ""
    skips := ["b"]
    skipRange := ""
    bundlePath := ""
    providedApis := []
    requiredApis := []
    properties := []
    dependencies := [] }

def hiddenProviderCatalog : Catalog :=
  [{ name := "p"
     defaultChannel := "ch"
     channels := [⟨"ch", [hiddenHeadA, hiddenProviderB]⟩]
     deprecations := [] }]

/-- Strips the cache backend's dependency-derived `olm.gvk.required`
properties, the presentation difference between the two backends pinned
by `TestGetBundle`. -/
def stripRequiredGvkProperties (b : ApiBundle) : ApiBundle :=
  { b with properties := b.properties.filter fun pr =>
      pr.type != "olm.gvk.required" }

/-! ## General lemmas about the query engine -/

theorem channelHead_mem {ch : Channel} {b : Bundle}
    (h : channelHead ch = some b) : b ∈ ch.bundles := by
  have hb : b ∈ nonTargeted ch := List.argmax_mem h
  exact List.mem_of_mem_filter hb

theorem channelHead_not_targeted {ch : Channel} {b : Bundle}
    (h : channelHead ch = some b) : isTargeted ch b.name = false := by
  have hb : b ∈ nonTargeted ch := List.argmax_mem h
  have := List.of_mem_filter hb
  simpa using this

theorem channelHead_max {ch : Channel} {b : Bundle}
    (h : channelHead ch = some b) :
    ∀ b' ∈ ch.bundles, isTargeted ch b'.name = false →
      bundleKey b' ≤ bundleKey b := by
  intro b' hb' hnt
  have hmem : b' ∈ nonTargeted ch := by
    refine List.mem_filter.mpr ⟨hb', ?_⟩
    simp [hnt]
  exact List.le_of_mem_argmax hmem h

theorem bundleKey_eq_name {a b : Bundle} (h : bundleKey a = bundleKey b) :
    a.name = b.name := by
  unfold bundleKey at h
  have h1 := congrArg (fun k => (ofLex k).2) h
  have h2 := congrArg (fun k => (ofLex k).2) h1
  have h3 := congrArg (fun k => (ofLex k).2) h2
  simp at h3
  cases ha : a.name
  cases hb : b.name
  simp_all

theorem mem_entriesThatReplace_iff (c : Catalog) (csv : String)
    (e : ChannelEntry) :
    e ∈ GetChannelEntriesThatReplace c csv ↔
      ∃ p ∈ c, ∃ ch ∈ p.channels, ∃ b ∈ ch.bundles,
        b.replaces = csv ∧ e = ⟨p.name, ch.name, b.name, b.replaces⟩ := by
  simp [GetChannelEntriesThatReplace, List.mem_flatMap, List.mem_map,
    List.mem_filter, beq_iff_eq]
  tauto

theorem mem_entriesThatProvide_iff (c : Catalog) (g : GroupVersionKind)
    (e : ChannelEntry) :
    e ∈ GetChannelEntriesThatProvide c g ↔
      ∃ p ∈ c, ∃ ch ∈ p.channels, ∃ b ∈ ch.bundles,
        g ∈ b.providedApis ∧
        (e = ⟨p.name, ch.name, b.name, b.replaces⟩ ∨
          ∃ s ∈ b.skips, e = ⟨p.name, ch.name, b.name, s⟩) := by
  simp only [GetChannelEntriesThatProvide, entriesForBundle, List.mem_dedup,
    List.mem_flatMap, List.mem_filter, List.mem_cons, List.mem_map]
  constructor
  · rintro ⟨p, hp, ch, hch, b, ⟨hb, hg⟩, he⟩
    refine ⟨p, hp, ch, hch, b, hb, by simpa using hg, ?_⟩
    rcases he with he | ⟨s, hs, he⟩
    · exact Or.inl he
    · exact Or.inr ⟨s, hs, he.symm⟩
  · rintro ⟨p, hp, ch, hch, b, hb, hg, he⟩
    refine ⟨p, hp, ch, hch, b, ⟨hb, by simpa using hg⟩, ?_⟩
    rcases he with he | ⟨s, hs, he⟩
    · exact Or.inl he
    · exact Or.inr ⟨s, hs, he.symm⟩

theorem mem_latestEntriesThatProvide_iff (c : Catalog) (g : GroupVersionKind)
    (e : ChannelEntry) :
    e ∈ GetLatestChannelEntriesThatProvide c g ↔
      ∃ p ∈ c, ∃ ch ∈ p.channels, ∃ h, channelHead ch = some h ∧
        g ∈ h.providedApis ∧
        e = ⟨p.name, ch.name, h.name, h.replaces⟩ := by
  simp only [GetLatestChannelEntriesThatProvide, List.mem_flatMap,
    List.mem_filterMap, Option.bind_eq_some]
  constructor
  · rintro ⟨p, hp, ch, hch, h, hh, he⟩
    split at he
    case isTrue hcond =>
      exact ⟨p, hp, ch, hch, h, hh, by simpa using hcond,
        ((Option.some.injEq _ _).mp he).symm⟩
    case isFalse => exact absurd he (by simp)
  · rintro ⟨p, hp, ch, hch, h, hh, hprov, he⟩
    exact ⟨p, hp, ch, hch, h, hh, by simp [he, hprov]⟩

theorem latest_subset_provide (c : Catalog) (g : GroupVersionKind)
    (e : ChannelEntry) (he : e ∈ GetLatestChannelEntriesThatProvide c g) :
    e ∈ GetChannelEntriesThatProvide c g := by
  rw [mem_latestEntriesThatProvide_iff] at he
  obtain ⟨p, hp, ch, hch, h, hh, hprov, he⟩ := he
  rw [mem_entriesThatProvide_iff]
  exact ⟨p, hp, ch, hch, h, channelHead_mem hh, hprov, Or.inl he⟩

theorem getBundleThatReplaces_sound (c : Catalog) (csv pkg chName : String)
    (b : ApiBundle) (h : GetBundleThatReplaces c csv pkg chName = some b) :
    ∃ p, findPackage c pkg = some p ∧
      ∃ ch, findChannel p chName = some ch ∧
        ∃ bb ∈ ch.bundles, b = apiBundleOf p ch bb ∧
          (bb.replaces = csv ∨ csv ∈ bb.skips ∨
            satisfiesSkipRange p bb csv = true) := by
  simp only [GetBundleThatReplaces, Option.bind_eq_some,
    Option.map_eq_some'] at h
  obtain ⟨p, hp, ch, hch, bb, hbb, hb⟩ := h
  have hmem := List.argmax_mem hbb
  have hfil := List.mem_filter.mp hmem
  have hmatch := hfil.2
  simp only [replacesMatches, Bool.or_eq_true, beq_iff_eq] at hmatch
  refine ⟨p, hp, ch, hch, bb, hfil.1, hb.symm, ?_⟩
  rcases hmatch with (hr | hs) | hsr
  · exact Or.inl hr
  · exact Or.inr (Or.inl (by simpa using hs))
  · exact Or.inr (Or.inr hsr)

theorem apiBundleOf_deprecation_properties (p : Package) (ch : Channel)
    (b : Bundle) (hb : ∀ pr ∈ b.properties, pr.type ≠ "olm.deprecation") :
    (apiBundleOf p ch b).properties.filter
        (fun pr => pr.type == "olm.deprecation") =
      ((bundleDeprecation p b.name).map mkDeprecationProperty).toList := by
  simp only [apiBundleOf, List.filter_append]
  have h1 : b.properties.filter (fun pr => pr.type == "olm.deprecation") = [] := by
    rw [List.filter_eq_nil_iff]
    intro pr hpr
    simpa using hb pr hpr
  rw [h1, List.nil_append]
  cases bundleDeprecation p b.name with
  | none => simp
  | some m => simp [mkDeprecationProperty]

theorem apiPackageOf_channel_deprecations (p : Package) (cs : ApiChannel)
    (hcs : cs ∈ (apiPackageOf p).channels) :
    cs.deprecation = (channelDeprecation p cs.name).map ApiDeprecation.mk := by
  simp only [apiPackageOf, List.mem_filterMap, Option.map_eq_some'] at hcs
  obtain ⟨ch, _, h, _, heq⟩ := hcs
  subst heq
  rfl

theorem apiPackageOf_default_listed (p : Package)
    (h : ∃ ch ∈ p.channels, ch.name = p.defaultChannel ∧
      (channelHead ch).isSome) :
    (apiPackageOf p).channels.any
      (fun cs => cs.name == (apiPackageOf p).defaultChannelName) = true := by
  obtain ⟨ch, hch, hname, hhead⟩ := h
  obtain ⟨hd, hh⟩ := Option.isSome_iff_exists.mp hhead
  rw [List.any_eq_true]
  refine ⟨⟨ch.name, hd.name, (channelDeprecation p ch.name).map ApiDeprecation.mk⟩, ?_, ?_⟩
  · simp only [apiPackageOf, List.mem_filterMap]
    exact ⟨ch, hch, by rw [hh]; rfl⟩
  · simp [apiPackageOf, hname]

theorem canonicalSummary_ne_of_mutation (fs : SourceFS) (i : Nat)
    (h : i < fs.length) (c' : String) (hc : c' ≠ fs[i].contents) :
    canonicalSummary (fs.set i ⟨fs[i].path, c'⟩) ≠ canonicalSummary fs := by
  intro heq
  have hi : i < (canonicalSummary (fs.set i ⟨fs[i].path, c'⟩)).length := by
    simpa [canonicalSummary] using h
  have h1 : (canonicalSummary (fs.set i ⟨fs[i].path, c'⟩))[i] =
      (fs[i].path, c'.length, c') := by
    simp [canonicalSummary, List.getElem_set]
  rw [List.getElem_of_eq heq hi] at h1
  simp [canonicalSummary] at h1
  exact hc h1.2.symm

theorem checkIntegrity_iff (c : Cache) (fs : SourceFS) :
    CheckIntegrity c fs = true ↔ c.storedDigest = some (canonicalSummary fs) := by
  simp [CheckIntegrity]

theorem serveRun_integrity_failure (s : ServeFlags) (store : Cache)
    (fs : SourceFS) (henf : s.cacheEnforceIntegrity = true)
    (hfail : CheckIntegrity store fs = false) :
    (serveRun s store fs).2.isSome = true ∧
      ServeStep.loadCache ∉ (serveRun s store fs).1 ∧
      ServeStep.serveGrpc ∉ (serveRun s store fs).1 := by
  unfold serveRun
  cases hdir : s.cacheDir == "" with
  | true => simp [hdir, henf]
  | false => simp [hdir, henf, hfail]

/-! ## Claim theorems -/

/-- Claim C1, counterexample.  The claim states that `GetBundle` attaches
bundle-, channel-, and package-scoped deprecations as properties of type
`olm.deprecation`, and that on the deprecations fixture
`GetBundle("cockroachdb","stable-5.x","cockroachdb.v5.0.4")` carries the
package-level deprecation.  `TestGetBundle` pins the returned bundle to
`cockroachBundle`, whose property list holds exactly the `olm.gvk` and
`olm.package` properties — no deprecation property at all — even though a
channel-scoped and a package-scoped deprecation applying to that bundle
exist in the fixture. -/
theorem claimC1_counterexample :
    GetBundle deprecationsFixture "cockroachdb" "stable-5.x"
        "cockroachdb.v5.0.4" = some cockroachBundle ∧
      cockroachBundle.properties.all
        (fun pr => pr.type != "olm.deprecation") = true ∧
      (channelDeprecation cockroachPackage "stable-5.x").isSome = true ∧
      (packageDeprecation cockroachPackage).isSome = true := by
  decide

/-- Claim C1, amended.  `GetBundle` attaches only the bundle-scoped
Deprecation of the returned bundle as a property of type
`olm.deprecation`; channel- and package-scoped deprecations are not
attached.  In particular
`GetBundle("cockroachdb","stable-5.x","cockroachdb.v5.0.4")` on the
deprecations fixture returns the bundle pinned by `TestGetBundle`, with
no deprecation property (neither the package-level message nor the
bundle-level message of v5.0.3). -/
theorem claimC1_amended :
    (∀ (p : Package) (ch : Channel) (b : Bundle),
      (∀ pr ∈ b.properties, pr.type ≠ "olm.deprecation") →
      (apiBundleOf p ch b).properties.filter
          (fun pr => pr.type == "olm.deprecation") =
        ((bundleDeprecation p b.name).map mkDeprecationProperty).toList) ∧
    GetBundle deprecationsFixture "cockroachdb" "stable-5.x"
        "cockroachdb.v5.0.4" = some cockroachBundle ∧
    cockroachBundle.properties.filter
        (fun pr => pr.type == "olm.deprecation") = [] := by
  exact ⟨apiBundleOf_deprecation_properties, by decide, by decide⟩

/-- Witness for C1 (amended): on the fixture bundle `cockroachdb.v5.0.3`,
which does carry a bundle-scoped deprecation, the attached deprecation
property is exactly that message. -/
theorem claimC1_witness :
    (apiBundleOf cockroachPackage ⟨"stable-5.x", [cockroachV503, cockroachV504]⟩
        cockroachV503).properties.filter
        (fun pr => pr.type == "olm.deprecation") =
      [mkDeprecationProperty cockroachBundleDeprecationMsg] := by
  have h := claimC1_amended.1 cockroachPackage
    ⟨"stable-5.x", [cockroachV503, cockroachV504]⟩ cockroachV503 (by decide)
  rw [h]
  decide

/-- Claim C2.  Every bundle returned by
`GetBundleThatReplaces(csvName, pkg, channel)` lies in the queried
channel and either replaces `csvName`, or has `csvName` in its skips, or
covers `csvName` by its skipRange; and on the etcd fixture the query for
the never-published `etcdoperator.v0.9.1` returns `etcdoperator.v0.9.2`
(which has v0.9.1 in its skips), although v0.9.1 names no bundle. -/
theorem claimC2 :
    (∀ (c : Catalog) (csv pkg chName : String) (b : ApiBundle),
      GetBundleThatReplaces c csv pkg chName = some b →
      ∃ p, findPackage c pkg = some p ∧
        ∃ ch, findChannel p chName = some ch ∧
          ∃ bb ∈ ch.bundles, b = apiBundleOf p ch bb ∧
            (bb.replaces = csv ∨ csv ∈ bb.skips ∨
              satisfiesSkipRange p bb csv = true)) ∧
    GetBundleThatReplaces etcdCatalog "etcdoperator.v0.9.1" "etcd" "alpha" =
      some (etcdoperatorV0_9_2 "alpha" false true) ∧
    GetBundleThatReplaces etcdCatalog "etcdoperator.v0.9.0" "etcd" "alpha" =
      some (etcdoperatorV0_9_2 "alpha" false true) ∧
    (etcdPackage.channels.flatMap Channel.bundles).all
      (fun b => b.name != "etcdoperator.v0.9.1") = true ∧
    "etcdoperator.v0.9.1" ∈ etcdV092.skips := by
  exact ⟨getBundleThatReplaces_sound, by decide, by decide, by decide, by decide⟩

/-- Witness for C2 at the synthetic-replaces query of the etcd fixture. -/
theorem claimC2_witness :
    ∃ p, findPackage etcdCatalog "etcd" = some p ∧
      ∃ ch, findChannel p "alpha" = some ch ∧
        ∃ bb ∈ ch.bundles,
          etcdoperatorV0_9_2 "alpha" false true = apiBundleOf p ch bb ∧
          (bb.replaces = "etcdoperator.v0.9.1" ∨
            "etcdoperator.v0.9.1" ∈ bb.skips ∨
            satisfiesSkipRange p bb "etcdoperator.v0.9.1" = true) :=
  claimC2.1 etcdCatalog "etcdoperator.v0.9.1" "etcd" "alpha"
    (etcdoperatorV0_9_2 "alpha" false true) (by decide)

/-- Claim C3.  `GetChannelEntriesThatProvide(g,v,k)` streams one entry per
distinct `(pkg, channel, bundleName, replaces)` tuple of bundles
providing the GVK — the bundle's own `replaces` edge (empty for channel
roots) plus one synthetic entry per `skips` predecessor — and on the etcd
fixture the `EtcdCluster` query yields exactly ten entries: two per
channel for `etcdoperator.v0.9.2` in `alpha`/`stable` (replaces v0.9.0
and v0.9.1), and one each for v0.9.0 and v0.6.1 per channel. -/
theorem claimC3 :
    (∀ (c : Catalog) (g : GroupVersionKind) (e : ChannelEntry),
      e ∈ GetChannelEntriesThatProvide c g ↔
        ∃ p ∈ c, ∃ ch ∈ p.channels, ∃ b ∈ ch.bundles,
          g ∈ b.providedApis ∧
          (e = ⟨p.name, ch.name, b.name, b.replaces⟩ ∨
            ∃ s ∈ b.skips, e = ⟨p.name, ch.name, b.name, s⟩)) ∧
    (∀ (c : Catalog) (g : GroupVersionKind),
      (GetChannelEntriesThatProvide c g).Nodup) ∧
    GetChannelEntriesThatProvide etcdCatalog gvkEtcdCluster =
      [⟨"etcd", "alpha", "etcdoperator.v0.6.1", ""⟩,
       ⟨"etcd", "alpha", "etcdoperator.v0.9.0", "etcdoperator.v0.6.1"⟩,
       ⟨"etcd", "alpha", "etcdoperator.v0.9.2", "etcdoperator.v0.9.0"⟩,
       ⟨"etcd", "alpha", "etcdoperator.v0.9.2", "etcdoperator.v0.9.1"⟩,
       ⟨"etcd", "beta", "etcdoperator.v0.6.1", ""⟩,
       ⟨"etcd", "beta", "etcdoperator.v0.9.0", "etcdoperator.v0.6.1"⟩,
       ⟨"etcd", "stable", "etcdoperator.v0.6.1", ""⟩,
       ⟨"etcd", "stable", "etcdoperator.v0.9.0", "etcdoperator.v0.6.1"⟩,
       ⟨"etcd", "stable", "etcdoperator.v0.9.2", "etcdoperator.v0.9.0"⟩,
       ⟨"etcd", "stable", "etcdoperator.v0.9.2", "etcdoperator.v0.9.1"⟩] := by
  exact ⟨mem_entriesThatProvide_iff, fun c g => List.nodup_dedup _, by decide⟩

/-- Claim C4, counterexample.  The claim states that for every loaded
catalog, `GetLatestChannelEntriesThatProvide(g)` contains exactly one
entry per `(pkg, channel)` that provides `g`.  In the catalog below,
channel `ch` provides `g` through bundle `b` (the providers stream is
nonempty for `(p, ch)`), but the channel head `a` — which skips `b` and
provides nothing — does not, so the latest-providers stream is empty. -/
theorem claimC4_counterexample :
    GetChannelEntriesThatProvide hiddenProviderCatalog hiddenGvk =
        [⟨"p", "ch", "b", ""⟩] ∧
      GetLatestChannelEntriesThatProvide hiddenProviderCatalog hiddenGvk = [] ∧
      (channelHead ⟨"ch", [hiddenHeadA, hiddenProviderB]⟩).map Bundle.name =
        some "a" := by
  decide

/-- Claim C4, amended.  `GetLatestChannelEntriesThatProvide(g)` is a
subset of `GetChannelEntriesThatProvide(g)`, and contains exactly the
head entry of each `(pkg, channel)` whose channel head provides `g`; on
the etcd fixture it streams exactly three entries, one per etcd channel,
each pointing at that channel's head bundle. -/
theorem claimC4_amended :
    (∀ (c : Catalog) (g : GroupVersionKind) (e : ChannelEntry),
      e ∈ GetLatestChannelEntriesThatProvide c g →
        e ∈ GetChannelEntriesThatProvide c g) ∧
    (∀ (c : Catalog) (g : GroupVersionKind) (e : ChannelEntry),
      e ∈ GetLatestChannelEntriesThatProvide c g ↔
        ∃ p ∈ c, ∃ ch ∈ p.channels, ∃ h, channelHead ch = some h ∧
          g ∈ h.providedApis ∧
          e = ⟨p.name, ch.name, h.name, h.replaces⟩) ∧
    GetLatestChannelEntriesThatProvide etcdCatalog gvkEtcdCluster =
      [⟨"etcd", "alpha", "etcdoperator.v0.9.2", "etcdoperator.v0.9.0"⟩,
       ⟨"etcd", "beta", "etcdoperator.v0.9.0", "etcdoperator.v0.6.1"⟩,
       ⟨"etcd", "stable", "etcdoperator.v0.9.2", "etcdoperator.v0.9.0"⟩] := by
  exact ⟨latest_subset_provide, mem_latestEntriesThatProvide_iff, by decide⟩

/-- Witness for C4 (amended): the beta-channel head entry of the etcd
fixture is in the latest stream, hence in the full providers stream. -/
theorem claimC4_witness :
    ChannelEntry.mk "etcd" "beta" "etcdoperator.v0.9.0"
        "etcdoperator.v0.6.1" ∈
      GetChannelEntriesThatProvide etcdCatalog gvkEtcdCluster :=
  claimC4_amended.1 etcdCatalog gvkEtcdCluster
    ⟨"etcd", "beta", "etcdoperator.v0.9.0", "etcdoperator.v0.6.1"⟩ (by decide)

/-- Claim C5.  The channel head is a bundle of the channel that is
neither replaces-targeted nor skips-targeted by any other bundle of the
channel, and is maximal (greatest semver version, tie-broken by bundle
name) among such bundles — keys agreeing only on equal names — and on the
fixtures the heads reported through `GetPackage`'s channel summaries are
`etcdoperator.v0.9.2` for etcd `alpha`/`stable`, `etcdoperator.v0.9.0`
for `beta`, and `cockroachdb.v5.0.4` for `stable-5.x`. -/
theorem claimC5 :
    (∀ (ch : Channel) (b : Bundle), channelHead ch = some b →
      b ∈ ch.bundles ∧ isTargeted ch b.name = false ∧
      ∀ b' ∈ ch.bundles, isTargeted ch b'.name = false →
        bundleKey b' ≤ bundleKey b) ∧
    (∀ a b : Bundle, bundleKey a = bundleKey b → a.name = b.name) ∧
    (GetPackage etcdCatalog "etcd").map
        (fun p => p.channels.map fun cs => (cs.name, cs.csvName)) =
      some [("alpha", "etcdoperator.v0.9.2"),
            ("beta", "etcdoperator.v0.9.0"),
            ("stable", "etcdoperator.v0.9.2")] ∧
    (GetPackage deprecationsFixture "cockroachdb").map
        (fun p => p.channels.map fun cs => (cs.name, cs.csvName)) =
      some [("stable-5.x", "cockroachdb.v5.0.4"),
            ("stable-v6.x", "cockroachdb.v6.0.0")] := by
  exact ⟨fun ch b h => ⟨channelHead_mem h, channelHead_not_targeted h,
      channelHead_max h⟩,
    fun a b h => bundleKey_eq_name h, by decide, by decide⟩

/-- Witness for C5 at the etcd alpha channel: the head is
`etcdoperator.v0.9.2`, it is untargeted and maximal. -/
theorem claimC5_witness :
    channelHead ⟨"alpha", [etcdV061, etcdV090, etcdV092]⟩ = some etcdV092 ∧
      (etcdV092 ∈ [etcdV061, etcdV090, etcdV092] ∧
        isTargeted ⟨"alpha", [etcdV061, etcdV090, etcdV092]⟩ etcdV092.name =
          false ∧
        ∀ b' ∈ [etcdV061, etcdV090, etcdV092],
          isTargeted ⟨"alpha", [etcdV061, etcdV090, etcdV092]⟩ b'.name =
              false →
            bundleKey b' ≤ bundleKey etcdV092) :=
  ⟨by decide,
   claimC5.1 ⟨"alpha", [etcdV061, etcdV090, etcdV092]⟩ etcdV092 (by decide)⟩

/-- Claim C6.  `GetChannelEntriesThatReplace(csvName)` streams exactly the
channel entries whose explicit `replaces` equals `csvName` — skips and
skipRange coverage do not match — and on the deprecations fixture the
query for `cockroachdb.v5.0.3` yields only the `stable-5.x` entry for
`cockroachdb.v5.0.4`, not `cockroachdb.v6.0.0`, although the latter's
skipRange `<6.0.0` does cover version 5.0.3. -/
theorem claimC6 :
    (∀ (c : Catalog) (csv : String) (e : ChannelEntry),
      e ∈ GetChannelEntriesThatReplace c csv ↔
        ∃ p ∈ c, ∃ ch ∈ p.channels, ∃ b ∈ ch.bundles,
          b.replaces = csv ∧ e = ⟨p.name, ch.name, b.name, b.replaces⟩) ∧
    GetChannelEntriesThatReplace deprecationsFixture "cockroachdb.v5.0.3" =
      [⟨"cockroachdb", "stable-5.x", "cockroachdb.v5.0.4",
        "cockroachdb.v5.0.3"⟩] ∧
    GetChannelEntriesThatReplace etcdCatalog "etcdoperator.v0.6.1" =
      [⟨"etcd", "alpha", "etcdoperator.v0.9.0", "etcdoperator.v0.6.1"⟩,
       ⟨"etcd", "beta", "etcdoperator.v0.9.0", "etcdoperator.v0.6.1"⟩,
       ⟨"etcd", "stable", "etcdoperator.v0.9.0", "etcdoperator.v0.6.1"⟩] ∧
    satisfiesSkipRange cockroachPackage cockroachV600 "cockroachdb.v5.0.3" =
      true := by
  exact ⟨mem_entriesThatReplace_iff, by decide, by decide, by decide⟩

/-- Claim C7.  `GetPackage` decorates the returned package with its own
package-scoped Deprecation and each channel summary with that channel's
Deprecation; for a package whose default channel exists and has a head,
the returned `default_channel_name` names one of the returned channels;
and on the deprecations fixture `GetPackage("cockroachdb")` returns
exactly the package pinned by `TestGetPackage` (default channel
`stable-v6.x`, package-level message, `stable-5.x` marked deprecated with
the literal message). -/
theorem claimC7 :
    (∀ p : Package, (apiPackageOf p).deprecation =
      (packageDeprecation p).map ApiDeprecation.mk) ∧
    (∀ (p : Package) (cs : ApiChannel), cs ∈ (apiPackageOf p).channels →
      cs.deprecation = (channelDeprecation p cs.name).map ApiDeprecation.mk) ∧
    (∀ p : Package,
      (∃ ch ∈ p.channels, ch.name = p.defaultChannel ∧
        (channelHead ch).isSome) →
      (apiPackageOf p).channels.any
        (fun cs => cs.name == (apiPackageOf p).defaultChannelName) = true) ∧
    GetPackage deprecationsFixture "cockroachdb" = some getPackageExpectedDep ∧
    GetPackage etcdCatalog "etcd" = some getPackageExpected := by
  exact ⟨fun p => rfl, apiPackageOf_channel_deprecations,
    apiPackageOf_default_listed, by decide, by decide⟩

/-- Witness for C7 on the deprecations fixture: the default channel
`stable-v6.x` is among the returned channel summaries. -/
theorem claimC7_witness :
    (apiPackageOf cockroachPackage).channels.any
      (fun cs => cs.name == (apiPackageOf cockroachPackage).defaultChannelName) =
      true :=
  claimC7.2.2.1 cockroachPackage (by decide)

/-- Claim C8.  `CheckIntegrity(fs)` succeeds iff the cache's stored digest
equals the canonical digest of `fs`; mutating the contents of any source
file makes it fail; and in enforce-integrity mode that failure makes
`serve.run` return an error without loading the cache and without
starting the gRPC server. -/
theorem claimC8 :
    (∀ (c : Cache) (fs : SourceFS),
      CheckIntegrity c fs = true ↔
        c.storedDigest = some (canonicalSummary fs)) ∧
    (∀ (fs : SourceFS) (i : Nat) (c' : String) (h : i < fs.length),
      c' ≠ fs[i].contents →
      CheckIntegrity (Cache.build fs) (fs.set i ⟨fs[i].path, c'⟩) = false) ∧
    (∀ (s : ServeFlags) (store : Cache) (fs : SourceFS),
      s.cacheEnforceIntegrity = true → CheckIntegrity store fs = false →
      (serveRun s store fs).2.isSome = true ∧
        ServeStep.loadCache ∉ (serveRun s store fs).1 ∧
        ServeStep.serveGrpc ∉ (serveRun s store fs).1) := by
  refine ⟨checkIntegrity_iff, ?_, serveRun_integrity_failure⟩
  intro fs i c' h hc
  have hne := canonicalSummary_ne_of_mutation fs i h c' hc
  have hne' : canonicalSummary fs ≠
      canonicalSummary (fs.set i ⟨fs[i].path, c'⟩) := fun he => hne he.symm
  simp [CheckIntegrity, Cache.build, hne']

/-- Witness for C8 on a one-file source tree: mutating the file's byte
fails the integrity check, and in enforce mode the run aborts with an
error. -/
theorem claimC8_witness :
    CheckIntegrity (Cache.build [⟨"catalog.json", "x"⟩])
        ([(⟨"catalog.json", "x"⟩ : SourceFile)].set 0 ⟨"catalog.json", "y"⟩) =
      false ∧
    (serveRun ⟨"cachedir", false, true⟩ (Cache.build [⟨"catalog.json", "x"⟩])
        [⟨"catalog.json", "y"⟩]).2.isSome = true :=
  ⟨claimC8.2.1 [⟨"catalog.json", "x"⟩] 0 "y" (by decide) (by decide),
   (claimC8.2.2 ⟨"cachedir", false, true⟩ (Cache.build [⟨"catalog.json", "x"⟩])
     [⟨"catalog.json", "y"⟩] (by decide) (by decide)).1⟩

/-- Claim C9, counterexample.  The claim states that the legacy SQL store
and the declarative cache return equal results for each query-engine
operation.  `TestGetBundle` pins the SQL backend's
`GetBundle("etcd","alpha","etcdoperator.v0.9.2")` to
`etcdoperatorV0_9_2("alpha", false, false, …)` and the cache backend's to
`etcdoperatorV0_9_2("alpha", false, true, …)`; these differ — the cache
result carries an extra dependency-derived `olm.gvk.required`
property — so the two backends do not return equal results. -/
theorem claimC9_counterexample :
    etcdoperatorV0_9_2 "alpha" false false ≠
        etcdoperatorV0_9_2 "alpha" false true ∧
      (etcdoperatorV0_9_2 "alpha" false true).properties =
        (etcdoperatorV0_9_2 "alpha" false false).properties ++
          [⟨"olm.gvk.required", gvkEtcdClusterJson⟩] := by
  decide

/-- Claim C9, amended.  The two backends implement the same query
contract up to presentation: the cache backend additionally reports
dependency-derived `olm.gvk.required` properties (and manifest
formatting differs, e.g. the SQL backend's trailing newline in
`GetBundleForChannel`); stripping the `olm.gvk.required` properties from
the cache backend's expected bundle yields the SQL backend's expected
bundle, for every channel and either setting of the skips/replaces
dimension, while the SQL expectation is left unchanged. -/
theorem claimC9_amended :
    ∀ (channel : String) (addSkipsReplaces : Bool),
      stripRequiredGvkProperties
          (etcdoperatorV0_9_2 channel addSkipsReplaces true) =
        etcdoperatorV0_9_2 channel addSkipsReplaces false ∧
      stripRequiredGvkProperties
          (etcdoperatorV0_9_2 channel addSkipsReplaces false) =
        etcdoperatorV0_9_2 channel addSkipsReplaces false := by
  intro channel addSkipsReplaces
  cases addSkipsReplaces <;> exact ⟨rfl, rfl⟩

/-- Claim C10.  When `--cache-enforce-integrity` is not set on the
command line its effective value is true exactly when `--cache-dir` is
non-empty and `--cache-only` is false; when it is set, the explicit value
wins; and explicitly enabling it with an empty `--cache-dir` makes `run`
return an error before any cache operation (the operation trace is
empty). -/
theorem claimC10 :
    (∀ (explicitValue : Bool) (cacheDir : String) (cacheOnly : Bool),
      effectiveCacheEnforceIntegrity false explicitValue cacheDir cacheOnly =
          true ↔
        cacheDir ≠ "" ∧ cacheOnly = false) ∧
    (∀ (explicitValue : Bool) (cacheDir : String) (cacheOnly : Bool),
      effectiveCacheEnforceIntegrity true explicitValue cacheDir cacheOnly =
        explicitValue) ∧
    (∀ (cacheOnly : Bool) (store : Cache) (fs : SourceFS),
      serveRun ⟨"", cacheOnly, true⟩ store fs =
        ([], some "--cache-dir must be specified with --cache-enforce-integrity")) := by
  refine ⟨?_, fun v cd co => rfl, fun co store fs => ?_⟩
  · intro v cd co
    simp only [effectiveCacheEnforceIntegrity, if_neg Bool.false_ne_true,
      Bool.and_eq_true, bne_iff_ne, Bool.not_eq_true']
  · simp [serveRun]

end OperatorRegistry
